import Mathlib

/-!
Shallow embedding of the reporting/visualization layer of the repository:
the aggregation functions in `VisualizePrices.py` and
`benchmark_virtual_nonvirtual_order_visualization.py`, together with the
control flow of their error handling and artifact writing.

Prices, timestamps and throughput values are modelled as rationals; a pandas
NaN cell is modelled as `Option.none`.
-/

namespace HFTViz

/-- Arithmetic mean of a list of rationals (`Series.mean`); the empty list
yields 0 because division by zero is 0 in `ℚ`. -/
def seriesMean (xs : List ℚ) : ℚ := xs.sum / xs.length

/-- The trailing window of width `w` ending at index `i`: the elements of `xs`
at indices `[i+1-w, i]`. -/
def windowSlice (xs : List ℚ) (i w : Nat) : List ℚ := (xs.drop (i + 1 - w)).take w

/-- Embedding of `df_prices['price'].rolling(window=w).mean()`
(`VisualizePrices.py`, lines 135-136): a sequence of the same length as `xs`
whose entry `i` is the mean of the trailing width-`w` window when `i ≥ w-1`
and NaN (`none`) otherwise. -/
def rollingMean (w : Nat) (xs : List ℚ) : List (Option ℚ) :=
  (List.range xs.length).map (fun i =>
    if i + 1 < w then none else some (seriesMean (windowSlice xs i w)))

/-- Embedding of `df_prices['price'].pct_change().dropna()`
(`VisualizePrices.py`, line 147): element `i` is `(xs[i+1] - xs[i]) / xs[i]`;
the leading NaN produced by `pct_change` at index 0 is removed by `dropna`,
so nothing is emitted for the first price. -/
def pctChange (xs : List ℚ) : List ℚ :=
  List.zipWith (fun prev next => (next - prev) / prev) xs (xs.drop 1)

/-- A fixed 12-point price series, used to instantiate the moving-average claim. -/
def twelvePoints : List ℚ := [1, 2, 3, 4, 5, 6, 7, 8, 9, 10, 11, 12]

theorem countP_range_ge (w : Nat) (hw : 1 ≤ w) :
    ∀ n, (List.range n).countP (fun i => decide (w ≤ i + 1)) = n + 1 - w := by
  intro n
  induction n with
  | zero => simp; omega
  | succ n ih =>
    rw [List.range_succ, List.countP_append, ih]
    by_cases h : w ≤ n + 1 <;> (simp [h]; omega)

/-- C1: for every price sequence `xs` and window `w ∈ {5, 10}`, the rolling
moving average has the same length as `xs`; entry `i` with `i ≥ w-1` is the
arithmetic mean (sum divided by `w`) of the window of exactly `w` raw prices
at indices `[i-w+1, i]`; entries with `i < w-1` are the explicit undefined
marker `none`; and the number of defined entries is exactly
`max (n - w + 1) 0`. -/
theorem rollingMean_matches_claim (w : Nat) (xs : List ℚ) (hw : w = 5 ∨ w = 10) :
    (rollingMean w xs).length = xs.length ∧
    (∀ i, i < xs.length → w ≤ i + 1 →
      (rollingMean w xs)[i]? = some (some ((windowSlice xs i w).sum / w)) ∧
      (windowSlice xs i w).length = w ∧
      (∀ j, j < w → (windowSlice xs i w)[j]? = xs[i + 1 - w + j]?)) ∧
    (∀ i, i < xs.length → i + 1 < w → (rollingMean w xs)[i]? = some none) ∧
    ((rollingMean w xs).countP (fun c => c.isSome) : ℤ) = max ((xs.length : ℤ) - w + 1) 0 := by
  have hw1 : 1 ≤ w := by omega
  refine ⟨by simp [rollingMean], ?_, ?_, ?_⟩
  · intro i hi hwi
    have hlen : (windowSlice xs i w).length = w := by
      simp only [windowSlice, List.length_take, List.length_drop]
      omega
    refine ⟨?_, hlen, ?_⟩
    · simp only [rollingMean, List.getElem?_map, List.getElem?_range, hi, if_pos hi,
        Option.map_some']
      rw [if_neg (by omega)]
      simp [seriesMean, hlen]
    · intro j hj
      simp only [windowSlice]
      rw [List.getElem?_take, if_pos hj, List.getElem?_drop]
  · intro i hi hiw
    simp only [rollingMean, List.getElem?_map, List.getElem?_range, hi, Option.map_some']
    rw [if_pos hiw]
  · have hc : (rollingMean w xs).countP (fun c => c.isSome) = xs.length + 1 - w := by
      rw [rollingMean, List.countP_map]
      have he : ((fun c : Option ℚ => c.isSome) ∘ fun i =>
          if i + 1 < w then none else some (seriesMean (windowSlice xs i w))) =
          (fun i => decide (w ≤ i + 1)) := by
        funext i
        by_cases h : i + 1 < w <;> simp [h] <;> omega
      rw [he, countP_range_ge w hw1]
    rw [hc]
    omega

/-- Witness for C1: the 12-point series gives a 5-point moving average with
exactly 8 defined values and a 10-point moving average with exactly 3. -/
theorem rollingMean_matches_claim_witness :
    ((5 : Nat) = 5 ∨ (5 : Nat) = 10) ∧ ((10 : Nat) = 5 ∨ (10 : Nat) = 10) ∧
    (rollingMean 5 twelvePoints).countP (fun c => c.isSome) = 8 ∧
    (rollingMean 10 twelvePoints).countP (fun c => c.isSome) = 3 := by
  have hl : twelvePoints.length = 12 := by simp [twelvePoints]
  refine ⟨Or.inl rfl, Or.inr rfl, ?_, ?_⟩
  · have h5 := (rollingMean_matches_claim 5 twelvePoints (Or.inl rfl)).2.2.2
    rw [hl] at h5
    norm_num at h5
    exact_mod_cast h5
  · have h10 := (rollingMean_matches_claim 10 twelvePoints (Or.inr rfl)).2.2.2
    rw [hl] at h10
    norm_num at h10
    exact_mod_cast h10

/-- C2: for every price sequence of length `n ≥ 1`, the period-returns
computation yields a sequence of length `n - 1` (so the first price is
dropped, not kept as a marker) whose element `i` is
`(price[i+1] - price[i]) / price[i]`. -/
theorem pctChange_matches_claim (xs : List ℚ) (h : 1 ≤ xs.length) :
    (pctChange xs).length = xs.length - 1 ∧
    (∀ i, i < xs.length - 1 →
      (pctChange xs)[i]? = some ((xs.getD (i + 1) 0 - xs.getD i 0) / xs.getD i 0)) := by
  constructor
  · simp [pctChange, List.length_zipWith]
  · intro i hi
    have h1 : i < xs.length := by omega
    have hsucc : i + 1 < xs.length := by omega
    have h2 : i < (xs.drop 1).length := by simp; omega
    rw [pctChange, List.getElem?_zipWith]
    rw [List.getElem?_eq_getElem h1, List.getElem?_eq_getElem h2]
    have hd : (xs.drop 1)[i] = xs.getD (i + 1) 0 := by
      rw [List.getD_eq_getElem _ _ hsucc, List.getElem_drop]
      congr 1
      omega
    rw [hd, List.getD_eq_getElem _ _ h1]

/-- Witness for C2: the three-point series `[1, 2, 4]` has returns of length 2
with the expected values. -/
theorem pctChange_matches_claim_witness :
    1 ≤ ([1, 2, 4] : List ℚ).length ∧ (pctChange [1, 2, 4]).length = 3 - 1 :=
  ⟨by norm_num, by simpa using (pctChange_matches_claim [1, 2, 4] (by norm_num)).1⟩

/-- One row of the throughput-benchmark CSV `results.csv`
(`benchmark_virtual_nonvirtual_order_visualization.py`). -/
structure BenchmarkRecord where
  pattern : String
  impl : String
  ops_per_sec : ℚ
deriving DecidableEq

/-- Insert an element into a list so that a sorted list stays sorted for `le`. -/
def insertSorted {α : Type} (le : α → α → Bool) (x : α) : List α → List α
  | [] => [x]
  | y :: ys => if le x y then x :: y :: ys else y :: insertSorted le x ys

/-- Insertion sort with respect to a boolean comparison. -/
def sortBy {α : Type} (le : α → α → Bool) : List α → List α
  | [] => []
  | x :: xs => insertSorted le x (sortBy le xs)

/-- Remove duplicates, keeping the last occurrence of each element. -/
def dedupKeepLast {α : Type} [DecidableEq α] : List α → List α
  | [] => []
  | x :: xs => if x ∈ xs then dedupKeepLast xs else x :: dedupKeepLast xs

theorem mem_insertSorted {α : Type} (le : α → α → Bool) (x y : α) (l : List α) :
    y ∈ insertSorted le x l ↔ y = x ∨ y ∈ l := by
  induction l with
  | nil => simp [insertSorted]
  | cons z zs ih =>
    simp only [insertSorted]
    by_cases h : le x z
    · simp [h]
    · simp [h, ih]
      tauto

theorem mem_sortBy {α : Type} (le : α → α → Bool) (y : α) (l : List α) :
    y ∈ sortBy le l ↔ y ∈ l := by
  induction l with
  | nil => simp [sortBy]
  | cons z zs ih => simp [sortBy, mem_insertSorted, ih]

theorem mem_dedupKeepLast {α : Type} [DecidableEq α] (y : α) (l : List α) :
    y ∈ dedupKeepLast l ↔ y ∈ l := by
  induction l with
  | nil => simp [dedupKeepLast]
  | cons z zs ih =>
    simp only [dedupKeepLast]
    by_cases h : z ∈ zs
    · rw [if_pos h]
      simp [ih]
      intro hyz
      rw [hyz] at *
      tauto
    · rw [if_neg h]
      simp [ih]

/-- Lexicographic comparison of character lists by code point. -/
def strLexLe : List Char → List Char → Bool
  | [], _ => true
  | _ :: _, [] => false
  | a :: as, b :: bs =>
    if a.val < b.val then true else if b.val < a.val then false else strLexLe as bs

/-- Lexicographic order on strings, used for the column labels that pandas
`unstack` sorts. -/
def strLe (a b : String) : Bool := strLexLe a.data b.data

/-- Sort rationals ascending (the sort inside a median computation). -/
def sortQ : List ℚ → List ℚ := sortBy (fun a b => a ≤ b)

/-- Median of a list as pandas computes it: sort, take the middle element for
odd length, the mean of the two middle elements for even length; `none` for
the empty list. -/
def median (xs : List ℚ) : Option ℚ :=
  let s := sortQ xs
  let n := s.length
  if n = 0 then none
  else if n % 2 = 1 then s[n / 2]?
  else do
    let a ← s[n / 2 - 1]?
    let b ← s[n / 2]?
    pure ((a + b) / 2)

/-- The implementation column labels produced by `unstack()`: the distinct
`impl` values present in the input, in sorted label order. -/
def implCols (rows : List BenchmarkRecord) : List String :=
  sortBy strLe (dedupKeepLast (rows.map (fun r => r.impl)))

/-- The fixed row order forced by
`median_throughput.reindex(['homogeneous', 'bursty', 'mixed_random'])`. -/
def fixedPatternOrder : List String := ["homogeneous", "bursty", "mixed_random"]

/-- The `ops_per_sec` values of the `(pattern, impl)` group. -/
def groupVals (rows : List BenchmarkRecord) (p c : String) : List ℚ :=
  (rows.filter (fun r => r.pattern == p && r.impl == c)).map (fun r => r.ops_per_sec)

/-- Embedding of
`df.groupby(['pattern', 'impl'])['ops_per_sec'].median().unstack().reindex([...])`
(`create_chart`, lines 35-38): one labelled row per fixed pattern category, one
labelled cell per implementation column, `none` where the group is empty. -/
def groupedMedianTable (rows : List BenchmarkRecord) :
    List (String × List (String × Option ℚ)) :=
  fixedPatternOrder.map (fun p =>
    (p, (implCols rows).map (fun c => (c, median (groupVals rows p c)))))

/-- C3: for every throughput input, the grouped-median table has exactly 3 rows
labelled `homogeneous, bursty, mixed_random` in that order; every row carries
exactly the implementation columns present in the input; and a pattern
category with no input rows yields the explicit no-data marker `none` in each
of its cells rather than an error. -/
theorem groupedMedianTable_matches_claim (rows : List BenchmarkRecord) :
    (groupedMedianTable rows).length = 3 ∧
    (groupedMedianTable rows).map Prod.fst = ["homogeneous", "bursty", "mixed_random"] ∧
    (∀ row ∈ groupedMedianTable rows, row.2.map Prod.fst = implCols rows) ∧
    (∀ s, s ∈ implCols rows ↔ s ∈ rows.map (fun r => r.impl)) ∧
    (∀ p, ∀ row ∈ groupedMedianTable rows, row.1 = p →
      (∀ r ∈ rows, r.pattern ≠ p) → ∀ cell ∈ row.2, cell.2 = none) := by
  refine ⟨by simp [groupedMedianTable, fixedPatternOrder], ?_, ?_, ?_, ?_⟩
  · simp [groupedMedianTable, fixedPatternOrder]
  · intro row hrow
    simp only [groupedMedianTable, List.mem_map] at hrow
    obtain ⟨p, _, rfl⟩ := hrow
    simp [List.map_map, Function.comp_def]
  · intro s
    rw [implCols, mem_sortBy, mem_dedupKeepLast]
  · intro p row hrow hp habs cell hcell
    simp only [groupedMedianTable, List.mem_map] at hrow
    obtain ⟨q, hq, rfl⟩ := hrow
    simp only at hp
    simp only [List.mem_map] at hcell
    obtain ⟨c, hc, rfl⟩ := hcell
    show median (groupVals rows q c) = none
    have hfil : rows.filter (fun r => r.pattern == q && r.impl == c) = [] := by
      rw [List.filter_eq_nil_iff]
      intro r hr
      simp only [Bool.and_eq_true, beq_iff_eq, not_and]
      intro hpat _
      exact habs r hr (by rw [hpat, hp])
    rw [groupVals, hfil]
    rfl

/-- A throughput input containing only a `homogeneous` row, so that the
`bursty` category is absent. -/
def demoRows : List BenchmarkRecord := [⟨"homogeneous", "virtual", 1⟩]

/-- Witness for C3: on an input with no `bursty` rows the table still carries
a `bursty` row, whose single cell is the no-data marker. -/
theorem groupedMedianTable_matches_claim_witness :
    ("bursty", [("virtual", (none : Option ℚ))]) ∈ groupedMedianTable demoRows ∧
    ("virtual", (none : Option ℚ)).2 = none := by
  have hmem : ("bursty", [("virtual", (none : Option ℚ))]) ∈ groupedMedianTable demoRows := by
    decide
  refine ⟨hmem, ?_⟩
  exact (groupedMedianTable_matches_claim demoRows).2.2.2.2 "bursty" _ hmem rfl (by decide) _
    (by decide)

/-- One value held by a pandas table cell: a number, a string, a parsed
datetime, or NaN. -/
inductive Cell
  | num (q : ℚ)
  | str (s : String)
  | time (ns : ℚ)
  | na
deriving DecidableEq

/-- A pandas DataFrame, modelled as named columns in insertion order. -/
abbrev Frame := List (String × List Cell)

/-- Embedding of `df[name] = values`: replace the column if it exists,
otherwise append it as the last column. -/
def setCol : Frame → String → List Cell → Frame
  | [], name, v => [(name, v)]
  | (n, c) :: rest, name, v =>
    if n = name then (name, v) :: rest else (n, c) :: setCol rest name v

/-- Read a column of a frame (the empty column if absent). -/
def getCol (f : Frame) (name : String) : List Cell :=
  match f.find? (fun col => col.1 == name) with
  | some col => col.2
  | none => []

/-- The column labels of a frame, in order. -/
def colNames (f : Frame) : List String := f.map Prod.fst

/-- The numeric content of a cell (0 for non-numeric cells). -/
def cellNum : Cell → ℚ
  | Cell.num q => q
  | _ => 0

/-- A NaN-or-number value as a cell. -/
def cellOfOpt : Option ℚ → Cell
  | some q => Cell.num q
  | none => Cell.na

/-- The price DataFrame as loaded from `price_data_instrument_<k>.csv`:
columns `timestamp_ns` and `price`. -/
def loadedPriceFrame (ts ps : List ℚ) : Frame :=
  [("timestamp_ns", ts.map Cell.num), ("price", ps.map Cell.num)]

/-- One row of `order_history.csv`. -/
structure OrderRecord where
  timestamp_ns : ℚ
  instrument_id : ℚ
  side : String
  price : ℚ
deriving DecidableEq

/-- The order DataFrame as loaded from `order_history.csv`. -/
def loadedOrderFrame (orders : List OrderRecord) : Frame :=
  [("timestamp_ns", orders.map (fun r => Cell.num r.timestamp_ns)),
   ("instrument_id", orders.map (fun r => Cell.num r.instrument_id)),
   ("side", orders.map (fun r => Cell.str r.side)),
   ("price", orders.map (fun r => Cell.num r.price))]

/-- Embedding of lines 135-136 of `VisualizePrices.py`: the state of
`df_prices` after `df_prices['MA5'] = ...` and `df_prices['MA10'] = ...`
have run on the loaded price table. -/
def afterPriceAggregation (ts ps : List ℚ) : Frame :=
  setCol (setCol (loadedPriceFrame ts ps) "MA5" ((rollingMean 5 ps).map cellOfOpt))
    "MA10" ((rollingMean 10 ps).map cellOfOpt)

/-- Embedding of line 58 of `VisualizePrices.py`: the state of `df_orders`
after `df_orders['timestamp'] = pd.to_datetime(df_orders['timestamp_ns'], unit='ns')`. -/
def afterOrderParse (orders : List OrderRecord) : Frame :=
  setCol (loadedOrderFrame orders) "timestamp"
    (orders.map (fun r => Cell.time r.timestamp_ns))

/-- Sample variance with the pandas default `ddof=1`; 0 where pandas would
give NaN (fewer than two observations). -/
def sampleVar (xs : List ℚ) : ℚ :=
  (xs.map (fun x => (x - seriesMean xs) ^ 2)).sum / ((xs.length : ℚ) - 1)

/-- Sample standard deviation of a series (`Series.std()`). -/
noncomputable def seriesStd (xs : List ℚ) : ℝ := Real.sqrt (sampleVar xs)

/-- The statistics printed by `create_price_analysis_plots` (lines 147-162):
the period returns, their mean, their standard deviation, and the annualized
volatility `returns.std() * np.sqrt(252)`. -/
structure PriceReportStats where
  returns : List ℚ
  meanReturn : ℚ
  stdReturn : ℝ
  volatility : ℝ

/-- The full price-analysis outcome: the (mutated) frame and the statistics. -/
structure PriceAnalysis where
  frame : Frame
  stats : PriceReportStats

/-- Embedding of the aggregation part of `create_price_analysis_plots`:
moving averages are stored into the frame, and the statistics are computed
from the `price` column alone. -/
noncomputable def analyzePrices (ts ps : List ℚ) : PriceAnalysis :=
  let rets := pctChange ps
  { frame := afterPriceAggregation ts ps
  , stats :=
    { returns := rets
    , meanReturn := seriesMean rets
    , stdReturn := seriesStd rets
    , volatility := seriesStd rets * Real.sqrt 252 } }

/-- The statistics printed by `create_order_history_plots`, and the mutated
order frame. -/
structure OrderAnalysis where
  frame : Frame
  totalOrders : Nat
  buyOrders : Nat
  sellOrders : Nat
  avgPrice : ℚ
deriving DecidableEq

/-- Embedding of the aggregation part of `create_order_history_plots`. -/
def analyzeOrders (orders : List OrderRecord) : OrderAnalysis :=
  { frame := afterOrderParse orders
  , totalOrders := orders.length
  , buyOrders := (orders.filter (fun r => r.side == "BUY")).length
  , sellOrders := (orders.filter (fun r => r.side == "SELL")).length
  , avgPrice := seriesMean (orders.map (fun r => r.price)) }

/-- Formula taken from the spec wording: annualized volatility is the
standard deviation of the returns scaled by `sqrt 252`, with no dependence on
the sampling cadence. -/
noncomputable def specVolatilityFormula (rets : List ℚ) : ℝ := seriesStd rets * Real.sqrt 252

/-- C4: the volatility computed by the aggregator equals
`std(returns) * sqrt(252)`, and it is applied unconditionally: the statistics
do not depend on the timestamp column at all, so the actual sampling cadence
of the data never enters the computation. -/
theorem volatility_matches_claim (ts ps : List ℚ) :
    (analyzePrices ts ps).stats.volatility = specVolatilityFormula (pctChange ps) ∧
    (analyzePrices ts ps).stats.returns = pctChange ps ∧
    (∀ ts' : List ℚ, (analyzePrices ts' ps).stats.volatility =
      (analyzePrices ts ps).stats.volatility) :=
  ⟨rfl, rfl, fun _ => rfl⟩

/-- Counterexample for C9: on the one-point price series `[2]`, the price
table after aggregation differs from the loaded price table — lines 135-136
store the `MA5`/`MA10` columns into the loaded frame itself. -/
theorem aggregation_mutates_loaded_frame :
    afterPriceAggregation [1] [2] ≠ loadedPriceFrame [1] [2] := by decide

/-- C9 as amended: the aggregations are deterministic functions of the raw
columns — the raw `timestamp_ns`/`price`/`side` columns survive unchanged and
recomputing a rolling mean from the aggregated table's own `price` column
reproduces the stored `MA5` column — but the pipeline does extend the loaded
tables in place: the price table gains the `MA5` and `MA10` columns and the
order table gains the parsed `timestamp` column. -/
theorem aggregation_amended_claim (ts ps : List ℚ) (orders : List OrderRecord) :
    getCol (afterPriceAggregation ts ps) "timestamp_ns" = ts.map Cell.num ∧
    getCol (afterPriceAggregation ts ps) "price" = ps.map Cell.num ∧
    colNames (afterPriceAggregation ts ps) = ["timestamp_ns", "price", "MA5", "MA10"] ∧
    getCol (afterPriceAggregation ts ps) "MA5" = (rollingMean 5 ps).map cellOfOpt ∧
    getCol (afterPriceAggregation ts ps) "MA10" = (rollingMean 10 ps).map cellOfOpt ∧
    (rollingMean 5 ((getCol (afterPriceAggregation ts ps) "price").map cellNum)).map cellOfOpt =
      getCol (afterPriceAggregation ts ps) "MA5" ∧
    getCol (afterOrderParse orders) "side" = orders.map (fun r => Cell.str r.side) ∧
    getCol (afterOrderParse orders) "price" = orders.map (fun r => Cell.num r.price) ∧
    colNames (afterOrderParse orders) =
      ["timestamp_ns", "instrument_id", "side", "price", "timestamp"] := by
  have hprice : getCol (afterPriceAggregation ts ps) "price" = ps.map Cell.num := by
    simp [afterPriceAggregation, loadedPriceFrame, setCol, getCol]
  refine ⟨?_, hprice, ?_, ?_, ?_, ?_, ?_, ?_, ?_⟩
  · simp [afterPriceAggregation, loadedPriceFrame, setCol, getCol]
  · simp [afterPriceAggregation, loadedPriceFrame, setCol, colNames]
  · simp [afterPriceAggregation, loadedPriceFrame, setCol, getCol]
  · simp [afterPriceAggregation, loadedPriceFrame, setCol, getCol]
  · rw [hprice]
    have hid : (ps.map Cell.num).map cellNum = ps := by
      rw [List.map_map]
      simp [cellNum, Function.comp_def]
    rw [hid]
    simp [afterPriceAggregation, loadedPriceFrame, setCol, getCol]
  · simp [afterOrderParse, loadedOrderFrame, setCol, getCol]
  · simp [afterOrderParse, loadedOrderFrame, setCol, getCol]
  · simp [afterOrderParse, loadedOrderFrame, setCol, colNames]

/-- A wall-clock timestamp as `datetime.now()` delivers it. -/
structure Timestamp where
  year : Nat
  month : Nat
  day : Nat
  hour : Nat
  minute : Nat
  second : Nat
deriving DecidableEq

/-- The ranges `datetime` guarantees for its fields. -/
def Timestamp.Valid (t : Timestamp) : Prop :=
  1 ≤ t.year ∧ t.year ≤ 9999 ∧ 1 ≤ t.month ∧ t.month ≤ 12 ∧ 1 ≤ t.day ∧ t.day ≤ 31 ∧
    t.hour ≤ 23 ∧ t.minute ≤ 59 ∧ t.second ≤ 59

instance (t : Timestamp) : Decidable t.Valid := by
  unfold Timestamp.Valid
  infer_instance

/-- The character for a decimal digit. -/
def digitChar (n : Nat) : Char := Char.ofNat (48 + n)

/-- A number rendered as exactly two decimal digits (`%m`, `%d`, `%H`, `%M`,
`%S` of `strftime`). -/
def pad2 (n : Nat) : String := String.mk [digitChar (n / 10 % 10), digitChar (n % 10)]

/-- A number rendered as exactly four decimal digits (`%Y` of `strftime` for
the years `datetime` supports). -/
def pad4 (n : Nat) : String :=
  String.mk [digitChar (n / 1000 % 10), digitChar (n / 100 % 10),
    digitChar (n / 10 % 10), digitChar (n % 10)]

/-- The `%Y%m%d` part of the timestamp token. -/
def dateToken (t : Timestamp) : String := pad4 t.year ++ pad2 t.month ++ pad2 t.day

/-- The `%H%M%S` part of the timestamp token. -/
def timeToken (t : Timestamp) : String := pad2 t.hour ++ pad2 t.minute ++ pad2 t.second

/-- Embedding of `datetime.now().strftime("%Y%m%d_%H%M%S")`. -/
def strftimeToken (t : Timestamp) : String := dateToken t ++ "_" ++ timeToken t

theorem digitChar_isDigit (n : Nat) (h : n < 10) : (digitChar n).isDigit = true := by
  interval_cases n <;> decide

theorem pad2_digits (n : Nat) : ∀ c ∈ (pad2 n).data, c.isDigit = true := by
  intro c hc
  simp only [pad2, String.mk, List.mem_cons, List.not_mem_nil, or_false] at hc
  rcases hc with rfl | rfl <;> exact digitChar_isDigit _ (Nat.mod_lt _ (by norm_num))

theorem pad4_digits (n : Nat) : ∀ c ∈ (pad4 n).data, c.isDigit = true := by
  intro c hc
  simp only [pad4, String.mk, List.mem_cons, List.not_mem_nil, or_false] at hc
  rcases hc with rfl | rfl | rfl | rfl <;> exact digitChar_isDigit _ (Nat.mod_lt _ (by norm_num))

/-- One `fig.savefig(...)` call: the target path, the resolution, and whether
a tight bounding box was requested. -/
structure WriteOp where
  path : String
  dpi : Nat
  bboxTight : Bool
deriving DecidableEq

/-- The observable effect of one `save_plot` call: the managed directory was
ensured to exist, the performed writes, and the returned base name. -/
structure SavePlotResult where
  outDirEnsured : Bool
  writes : List WriteOp
  returnedBase : String
deriving DecidableEq

/-- The managed output directory of `save_plot`. -/
def plotsDir : String := "saved_plots"

/-- Embedding of `save_plot(fig, plot_name, formats)` (lines 12-27 of
`VisualizePrices.py`) in the case where every write succeeds:
`os.makedirs(plots_dir, exist_ok=True)`, then one
`fig.savefig(os.path.join(plots_dir, f"{base_name}.{fmt}"), dpi=300,
bbox_inches='tight')` per requested format, returning `base_name`. -/
def savePlot (plotName : String) (formats : List String) (t : Timestamp) : SavePlotResult :=
  let baseName := plotName ++ "_" ++ strftimeToken t
  { outDirEnsured := true
  , writes := formats.map (fun fmt =>
      { path := plotsDir ++ "/" ++ baseName ++ "." ++ fmt, dpi := 300, bboxTight := true })
  , returnedBase := baseName }

/-- C7: `save_plot` ensures the managed directory exists, performs exactly one
write per requested format at the path
`saved_plots/<base_name>_<YYYYMMDD>_<HHMMSS>.<ext>` with 300 dpi and a tight
bounding box, and returns the shared base-plus-timestamp token, whose date
token is 8 decimal digits and whose time token is 6 decimal digits. -/
theorem savePlot_matches_claim (plotName : String) (formats : List String) (t : Timestamp)
    (_h : t.Valid) :
    (savePlot plotName formats t).outDirEnsured = true ∧
    (savePlot plotName formats t).writes.length = formats.length ∧
    (∀ fmt ∈ formats,
      ({ path := plotsDir ++ "/" ++ plotName ++ "_" ++ dateToken t ++ "_" ++ timeToken t
            ++ "." ++ fmt,
         dpi := 300, bboxTight := true } : WriteOp) ∈ (savePlot plotName formats t).writes) ∧
    (∀ wop ∈ (savePlot plotName formats t).writes, wop.dpi = 300 ∧ wop.bboxTight = true ∧
      ∃ fmt ∈ formats,
        wop.path = plotsDir ++ "/" ++ plotName ++ "_" ++ dateToken t ++ "_" ++ timeToken t
          ++ "." ++ fmt) ∧
    (savePlot plotName formats t).returnedBase =
      plotName ++ "_" ++ dateToken t ++ "_" ++ timeToken t ∧
    (dateToken t).length = 8 ∧ (∀ c ∈ (dateToken t).data, c.isDigit = true) ∧
    (timeToken t).length = 6 ∧ (∀ c ∈ (timeToken t).data, c.isDigit = true) := by
  have hpath : ∀ fmt : String,
      plotsDir ++ "/" ++ (plotName ++ "_" ++ strftimeToken t) ++ "." ++ fmt =
        plotsDir ++ "/" ++ plotName ++ "_" ++ dateToken t ++ "_" ++ timeToken t ++ "." ++ fmt := by
    intro fmt
    simp [strftimeToken, String.append_assoc]
  refine ⟨rfl, by simp [savePlot], ?_, ?_, ?_, rfl, ?_, rfl, ?_⟩
  · intro fmt hf
    simp only [savePlot, List.mem_map]
    refine ⟨fmt, hf, ?_⟩
    rw [hpath fmt]
  · intro wop hw
    simp only [savePlot, List.mem_map] at hw
    obtain ⟨fmt, hf, rfl⟩ := hw
    exact ⟨rfl, rfl, fmt, hf, hpath fmt⟩
  · show plotName ++ "_" ++ strftimeToken t = _
    simp [strftimeToken, String.append_assoc]
  · intro c hc
    simp only [dateToken, String.data_append, List.mem_append] at hc
    rcases hc with (hc | hc) | hc
    · exact pad4_digits _ _ hc
    · exact pad2_digits _ _ hc
    · exact pad2_digits _ _ hc
  · intro c hc
    simp only [timeToken, String.data_append, List.mem_append] at hc
    rcases hc with (hc | hc) | hc
    · exact pad2_digits _ _ hc
    · exact pad2_digits _ _ hc
    · exact pad2_digits _ _ hc

/-- Witness for C7: a concrete valid timestamp, and the concrete filename the
claim promises for the default `pdf` format. -/
theorem savePlot_matches_claim_witness :
    Timestamp.Valid ⟨2026, 10, 12, 3, 4, 5⟩ ∧
    ({ path := plotsDir ++ "/" ++ "price_analysis_instrument_0" ++ "_"
          ++ dateToken ⟨2026, 10, 12, 3, 4, 5⟩ ++ "_" ++ timeToken ⟨2026, 10, 12, 3, 4, 5⟩
          ++ "." ++ "pdf",
       dpi := 300, bboxTight := true } : WriteOp) ∈
      (savePlot "price_analysis_instrument_0" ["pdf"] ⟨2026, 10, 12, 3, 4, 5⟩).writes ∧
    (savePlot "price_analysis_instrument_0" ["pdf"] ⟨2026, 10, 12, 3, 4, 5⟩).writes.length = 1 :=
  ⟨by decide,
   (savePlot_matches_claim "price_analysis_instrument_0" ["pdf"] ⟨2026, 10, 12, 3, 4, 5⟩
      (by decide)).2.2.1 "pdf" (by decide),
   (savePlot_matches_claim "price_analysis_instrument_0" ["pdf"] ⟨2026, 10, 12, 3, 4, 5⟩
      (by decide)).2.1⟩

/-- Whether the artifact-write loop finished, or an exception escaped while
encoding the named format. -/
inductive SaveOutcome
  | completed
  | raisedEncodingError (fmt : String)
deriving DecidableEq

/-- Embedding of the `for fmt in formats: fig.savefig(...)` loop of
`save_plot` when encoding can fail: `encodeOk` says which formats encode
successfully; a failing `savefig` raises, ending the loop with the earlier
files already on disk, and no handler in `save_plot` catches the exception. -/
def savePlotLoop (encodeOk : String → Bool) (baseName : String) :
    List String → List String × SaveOutcome
  | [] => ([], SaveOutcome.completed)
  | fmt :: rest =>
    if encodeOk fmt then
      let r := savePlotLoop encodeOk baseName rest
      ((plotsDir ++ "/" ++ baseName ++ "." ++ fmt) :: r.1, r.2)
    else ([], SaveOutcome.raisedEncodingError fmt)

/-- An encoder that succeeds for `pdf` and fails for `png`. -/
def pdfOnlyEncoder : String → Bool := fun fmt => fmt == "pdf"

/-- Counterexample for C8: with requested formats `[pdf, png]` and an encoder
that fails on `png`, the call raises — it does not report failure as a value —
and the `pdf` file has already been written, so the write is not
all-or-nothing. -/
theorem savePlot_partial_write :
    (savePlotLoop pdfOnlyEncoder "demo" ["pdf", "png"]).1 = ["saved_plots/demo.pdf"] ∧
    (savePlotLoop pdfOnlyEncoder "demo" ["pdf", "png"]).2 =
      SaveOutcome.raisedEncodingError "png" := by decide

/-- C8 as amended: the write loop is sequential, not atomic — the files
written are exactly those for the longest prefix of formats that encode
successfully, and the call completes without an exception precisely when
every requested format encodes; when some format fails, the exception
propagates (no failure value is reported) and the earlier files remain. -/
theorem savePlot_amended_claim (encodeOk : String → Bool) (baseName : String)
    (formats : List String) :
    (savePlotLoop encodeOk baseName formats).1 =
      (formats.takeWhile encodeOk).map (fun fmt => plotsDir ++ "/" ++ baseName ++ "." ++ fmt) ∧
    ((savePlotLoop encodeOk baseName formats).2 = SaveOutcome.completed ↔
      formats.all encodeOk = true) := by
  induction formats with
  | nil => simp [savePlotLoop]
  | cons fmt rest ih =>
    by_cases h : encodeOk fmt
    · simp only [savePlotLoop, h, if_pos, List.takeWhile_cons, List.all_cons, ih.1]

      exact ⟨by simp [h], by simp [h, ih.2]⟩
    · simp [savePlotLoop, h, List.takeWhile_cons]

/-- A throughput CSV file that exists on disk: which of the required columns
its header carries, and its parsed rows. -/
structure ThroughputCSV where
  hasPattern : Bool
  hasImpl : Bool
  hasOps : Bool
  rows : List BenchmarkRecord
deriving DecidableEq

/-- How one `create_chart` call ends: a printed not-found message with an
early return (a value), an uncaught `KeyError` escaping the function, or a
successful save of the chart at a path. -/
inductive ChartOutcome
  | notFoundMessage
  | uncaughtKeyError
  | saved (path : String) (table : List (String × List (String × Option ℚ)))
deriving DecidableEq

/-- Embedding of `create_chart(csv_file, output_image)`
(`benchmark_virtual_nonvirtual_order_visualization.py`, lines 21-72): the
`try` block covers only `pd.read_csv` and catches only `FileNotFoundError`;
when the file exists but a required column is absent, the
`groupby(['pattern', 'impl'])['ops_per_sec']` access raises `KeyError`,
which no handler catches; otherwise the grouped-median table is computed and
the chart is saved at exactly `output_image`. -/
def createChart (file : Option ThroughputCSV) (outputImage : String) : ChartOutcome :=
  match file with
  | none => ChartOutcome.notFoundMessage
  | some d =>
    if d.hasPattern && d.hasImpl && d.hasOps then
      ChartOutcome.saved outputImage (groupedMedianTable d.rows)
    else ChartOutcome.uncaughtKeyError

/-- A throughput CSV that exists but lacks the `ops_per_sec` column. -/
def missingOpsCSV : ThroughputCSV := ⟨true, true, false, []⟩

/-- Counterexample for C5: a throughput CSV that exists but lacks a required
column makes `create_chart` end in an uncaught `KeyError` — the failure
propagates as a raised exception past the pipeline boundary instead of being
reported as a value. -/
theorem missing_column_raises :
    createChart (some missingOpsCSV) "throughput_chart.png" = ChartOutcome.uncaughtKeyError :=
  rfl

/-- What a named input file can hold for the signal-engine script: absent,
present but malformed (any parsing or processing error), or well-formed. -/
inductive PriceInput
  | notFound
  | malformed
  | ok (ts ps : List ℚ)

/-- How a Python call ends: it returns a value (possibly `None`), or an
exception escapes it. -/
inductive PyOutcome (α : Type)
  | value (a : Option α)
  | raised (msg : String)

/-- Whether an exception escaped the call. -/
def PyOutcome.isRaised {α : Type} : PyOutcome α → Bool
  | PyOutcome.raised _ => true
  | _ => false

/-- Embedding of `create_price_analysis_plots` (lines 103-180 of
`VisualizePrices.py`): `except FileNotFoundError` and `except Exception`
cover the whole body, so every failure is converted into a printed message
and a `None` return. -/
noncomputable def createPriceAnalysisPlots (input : PriceInput) : PyOutcome PriceAnalysis :=
  match input with
  | PriceInput.notFound => PyOutcome.value none
  | PriceInput.malformed => PyOutcome.value none
  | PriceInput.ok ts ps => PyOutcome.value (some (analyzePrices ts ps))

/-- What the order-history file can hold. -/
inductive OrderInput
  | notFound
  | malformed
  | ok (orders : List OrderRecord)

/-- Embedding of `create_order_history_plots` (lines 51-108): both handlers
again cover the whole body, so every failure becomes a `None` return. -/
def createOrderHistoryPlots (input : OrderInput) : PyOutcome OrderAnalysis :=
  match input with
  | OrderInput.notFound => PyOutcome.value none
  | OrderInput.malformed => PyOutcome.value none
  | OrderInput.ok orders => PyOutcome.value (some (analyzeOrders orders))

/-- C5 as amended: in the signal-engine script every load or parse failure is
caught and returned as a value (`None`), and in the throughput-chart
generator a missing file is likewise reported as a value; but a throughput
CSV that exists while lacking a required column is not — it raises an
uncaught `KeyError` that terminates the surrounding process. -/
theorem error_reporting_amended_claim :
    (∀ input : PriceInput, (createPriceAnalysisPlots input).isRaised = false) ∧
    (∀ input : OrderInput, (createOrderHistoryPlots input).isRaised = false) ∧
    (∀ out : String, createChart none out = ChartOutcome.notFoundMessage) ∧
    (∀ (d : ThroughputCSV) (out : String), d.hasOps = false →
      createChart (some d) out = ChartOutcome.uncaughtKeyError) := by
  refine ⟨?_, ?_, fun _ => rfl, ?_⟩
  · intro input
    cases input <;> rfl
  · intro input
    cases input <;> rfl
  · intro d out hops
    simp [createChart, hops]

/-- Witness for C5 as amended: the concrete header-damaged CSV raises. -/
theorem error_reporting_amended_claim_witness :
    (⟨true, true, false, []⟩ : ThroughputCSV).hasOps = false ∧
    createChart (some ⟨true, true, false, []⟩) "out.png" = ChartOutcome.uncaughtKeyError :=
  ⟨rfl, error_reporting_amended_claim.2.2.2 ⟨true, true, false, []⟩ "out.png" rfl⟩

/-- The figure composed by `create_comprehensive_dashboard`: the panels bound
to actual aggregates. -/
structure DashboardFig where
  buyCount : Nat
  sellCount : Nat
  priceSeries : List ℚ
  returnsSeries : List ℚ
deriving DecidableEq

/-- The aggregate bindings of the dashboard template. -/
def composeDashboard (orders : List OrderRecord) (ps : List ℚ) : DashboardFig :=
  { buyCount := (orders.filter (fun r => r.side == "BUY")).length
  , sellCount := (orders.filter (fun r => r.side == "SELL")).length
  , priceSeries := ps
  , returnsSeries := pctChange ps }

/-- Embedding of `create_comprehensive_dashboard` (lines 183-235): both
`pd.read_csv` calls sit inside the `try`; if either file is absent the
`except FileNotFoundError` handler prints a message and the function returns
`None`, composing nothing. -/
def createComprehensiveDashboard (orders : Option (List OrderRecord))
    (prices : Option (List ℚ × List ℚ)) : Option DashboardFig :=
  match orders, prices with
  | some os, some pr => some (composeDashboard os pr.2)
  | _, _ => none

/-- Embedding of menu choice 3 in `main` (lines 263-279): the files written by
the dashboard report — `save_plot` runs only when the dashboard call returned
a truthy figure. -/
def dashboardReportWrites (orders : Option (List OrderRecord))
    (prices : Option (List ℚ × List ℚ)) (t : Timestamp) : List WriteOp :=
  match createComprehensiveDashboard orders prices with
  | none => []
  | some _ => (savePlot "trading_dashboard" ["pdf"] t).writes

/-- Embedding of menu choice 1 in `main` (lines 261-266): the files written by
the order-history report — `save_plot` runs only when
`create_order_history_plots` returned a truthy figure. -/
def orderHistoryReportWrites (input : OrderInput) (t : Timestamp) : List WriteOp :=
  match createOrderHistoryPlots input with
  | PyOutcome.value (some _) => (savePlot "order_history_analysis" ["pdf"] t).writes
  | _ => []

/-- Embedding of menu choice 2 in `main` (lines 268-272): the files written by
the price-analysis report — `save_plot` runs only when
`create_price_analysis_plots` returned a truthy figure. -/
noncomputable def priceAnalysisReportWrites (input : PriceInput) (t : Timestamp) :
    List WriteOp :=
  match createPriceAnalysisPlots input with
  | PyOutcome.value (some _) => (savePlot "price_analysis_instrument_0" ["pdf"] t).writes
  | _ => []

/-- A flat file system: a map from path to file content. -/
abbrev FileSys := String → Option Nat

/-- Write (or silently replace) the file at `path`. -/
def writeImage (fs : FileSys) (path : String) (content : Nat) : FileSys :=
  fun p => if p = path then some content else fs p

/-- One full run of `create_chart` against a file system: on success
`plt.savefig(output_image)` writes to exactly the caller-supplied path. -/
def runCreateChart (fs : FileSys) (file : Option ThroughputCSV) (out : String)
    (content : Nat) : FileSys × ChartOutcome :=
  match createChart file out with
  | ChartOutcome.saved p tbl => (writeImage fs p content, ChartOutcome.saved p tbl)
  | o => (fs, o)

/-- The default of the `output_image` parameter of `create_chart`. -/
def defaultOutputImage : String := "throughput_chart.png"

/-- C10: a successful `create_chart` run writes to exactly the caller-supplied
path (default `throughput_chart.png`) and touches no other path — there is no
timestamp token and no managed directory — and a second successful run with
the same arguments writes to the same path, silently replacing the first
file. -/
theorem chart_output_path_matches_claim (fs : FileSys) (d : ThroughputCSV) (out : String)
    (c1 c2 : Nat) (h : d.hasPattern = true ∧ d.hasImpl = true ∧ d.hasOps = true) :
    (runCreateChart fs (some d) out c1).2 = ChartOutcome.saved out (groupedMedianTable d.rows) ∧
    (runCreateChart fs (some d) out c1).1 out = some c1 ∧
    (∀ p, p ≠ out → (runCreateChart fs (some d) out c1).1 p = fs p) ∧
    (runCreateChart (runCreateChart fs (some d) out c1).1 (some d) out c2).1 out = some c2 ∧
    createChart (some d) defaultOutputImage =
      ChartOutcome.saved "throughput_chart.png" (groupedMedianTable d.rows) := by
  obtain ⟨h1, h2, h3⟩ := h
  have hsaved : ∀ o : String, createChart (some d) o =
      ChartOutcome.saved o (groupedMedianTable d.rows) := by
    intro o
    simp [createChart, h1, h2, h3]
  refine ⟨?_, ?_, ?_, ?_, hsaved defaultOutputImage⟩
  · simp [runCreateChart, hsaved out]
  · simp [runCreateChart, hsaved out, writeImage]
  · intro p hp
    simp [runCreateChart, hsaved out, writeImage, hp]
  · simp [runCreateChart, hsaved out, writeImage]

/-- A well-formed one-row throughput CSV. -/
def demoFullCSV : ThroughputCSV := ⟨true, true, true, [⟨"homogeneous", "virtual", 1⟩]⟩

/-- Witness for C10: on an empty file system, a concrete run writes the
default path and a repeated run replaces it. -/
theorem chart_output_path_matches_claim_witness :
    (demoFullCSV.hasPattern = true ∧ demoFullCSV.hasImpl = true ∧ demoFullCSV.hasOps = true) ∧
    (runCreateChart (fun _ => none) (some demoFullCSV) "throughput_chart.png" 1).1
      "throughput_chart.png" = some 1 ∧
    (runCreateChart (runCreateChart (fun _ => none) (some demoFullCSV) "throughput_chart.png"
        1).1 (some demoFullCSV) "throughput_chart.png" 2).1 "throughput_chart.png" = some 2 :=
  ⟨⟨rfl, rfl, rfl⟩,
   (chart_output_path_matches_claim (fun _ => none) demoFullCSV "throughput_chart.png" 1 2
      ⟨rfl, rfl, rfl⟩).2.1,
   (chart_output_path_matches_claim (fun _ => none) demoFullCSV "throughput_chart.png" 1 2
      ⟨rfl, rfl, rfl⟩).2.2.2.1⟩

/-- C6: for every report of the tool — order history, price analysis,
dashboard, and the throughput chart — when an upstream stage fails, the report
aborts immediately: no figure is composed (the creator returns `None` rather
than a figure), no downstream `save_plot`/`savefig` runs, and zero artifact
files are written; in particular the dashboard call produces zero files when
either of its two required input files is missing. -/
theorem report_aborts_matches_claim
    (oin : OrderInput) (pin : PriceInput)
    (orders : Option (List OrderRecord)) (prices : Option (List ℚ × List ℚ))
    (fs : FileSys) (out : String) (c : Nat) (t : Timestamp)
    (ho : oin = OrderInput.notFound ∨ oin = OrderInput.malformed)
    (hp : pin = PriceInput.notFound ∨ pin = PriceInput.malformed)
    (hd : orders = none ∨ prices = none) :
    createOrderHistoryPlots oin = PyOutcome.value none ∧
    orderHistoryReportWrites oin t = [] ∧
    createPriceAnalysisPlots pin = PyOutcome.value none ∧
    priceAnalysisReportWrites pin t = [] ∧
    createComprehensiveDashboard orders prices = none ∧
    dashboardReportWrites orders prices t = [] ∧
    (runCreateChart fs none out c).2 = ChartOutcome.notFoundMessage ∧
    (∀ p, (runCreateChart fs none out c).1 p = fs p) := by
  have hdash : createComprehensiveDashboard orders prices = none := by
    rcases hd with rfl | rfl
    · rfl
    · cases orders <;> rfl
  have horder : createOrderHistoryPlots oin = PyOutcome.value none := by
    rcases ho with rfl | rfl <;> rfl
  have hprice : createPriceAnalysisPlots pin = PyOutcome.value none := by
    rcases hp with rfl | rfl <;> rfl
  refine ⟨horder, ?_, hprice, ?_, hdash, ?_, rfl, fun _ => rfl⟩
  · rw [orderHistoryReportWrites, horder]
  · rw [priceAnalysisReportWrites, hprice]
  · rw [dashboardReportWrites, hdash]

/-- Witness for C6: with the order-history file absent, the price file
malformed, the dashboard missing its order input, and the throughput file
absent on an empty file system, every report writes zero files. -/
theorem report_aborts_matches_claim_witness :
    (OrderInput.notFound = OrderInput.notFound ∨
      OrderInput.notFound = OrderInput.malformed) ∧
    (PriceInput.malformed = PriceInput.notFound ∨
      PriceInput.malformed = PriceInput.malformed) ∧
    ((none : Option (List OrderRecord)) = none ∨
      (some ([], [1, 2]) : Option (List ℚ × List ℚ)) = none) ∧
    orderHistoryReportWrites OrderInput.notFound ⟨2026, 10, 12, 3, 4, 5⟩ = [] ∧
    priceAnalysisReportWrites PriceInput.malformed ⟨2026, 10, 12, 3, 4, 5⟩ = [] ∧
    dashboardReportWrites none (some ([], [1, 2])) ⟨2026, 10, 12, 3, 4, 5⟩ = [] ∧
    (runCreateChart (fun _ => none) none "throughput_chart.png" 7).1
      "throughput_chart.png" = none := by
  have h := report_aborts_matches_claim OrderInput.notFound PriceInput.malformed
    none (some ([], [1, 2])) (fun _ => none) "throughput_chart.png" 7
    ⟨2026, 10, 12, 3, 4, 5⟩ (Or.inl rfl) (Or.inr rfl) (Or.inl rfl)
  exact ⟨Or.inl rfl, Or.inr rfl, Or.inl rfl, h.2.1, h.2.2.2.1, h.2.2.2.2.2.1,
    h.2.2.2.2.2.2.2 "throughput_chart.png"⟩

end HFTViz
